import Mathlib

/-!
Shallow embedding of the wenyan-mcp server core (src/index.ts, src/wechat-api.ts).

JavaScript strings are modelled as Lean `String`; absent (`undefined`) values as
`Option`; JSON response bodies as structures with `Option` fields; thrown
exceptions as `Except String`.  Network effects are modelled by passing the
responses the runtime would deliver as explicit inputs, and the outbound calls a
run performs are recorded in an event trace.
-/

/-- Model of JavaScript `s.startsWith(p)`: the first `p.length` characters of
`s` equal `p`. -/
def jsStartsWith (s p : String) : Bool :=
  s.toList.take p.toList.length == p.toList

/-- JavaScript truthiness of a possibly-absent string: `undefined` and the
empty string are falsy, every other string is truthy. -/
def truthyStr : Option String → Bool
  | some s => !(s == "")
  | none => false

/-- JavaScript truthiness of a possibly-absent number: `undefined` and `0` are
falsy. -/
def truthyInt : Option Int → Bool
  | some n => !(n == 0)
  | none => false

/-- Rendering of a possibly-absent number inside a template literal. -/
def intDisplay : Option Int → String
  | some n => toString n
  | none => "undefined"

/-- Model of the JavaScript expression `errmsg || errcode` as interpolated into
an error-message template: `errmsg` when it is a truthy (non-empty) string,
otherwise the rendering of `errcode`. -/
def jsOrMsg (errmsg : Option String) (errcode : Option Int) : String :=
  match errmsg with
  | some s => if s = "" then intDisplay errcode else s
  | none => intDisplay errcode

/-- Did an `Except` computation fail? -/
def isFailure {α : Type} : Except String α → Bool
  | .error _ => true
  | .ok _ => false

/-- An HTTP response as seen by the code: the `ok` flag and `status` of the
`fetch` response, the raw body text, and the JSON-parsed body. -/
structure HttpResponse (α : Type) where
  ok : Bool
  status : Nat
  bodyText : String
  body : α

/-! ### wechat-api.ts : getAccessToken -/

/-- JSON body of the token endpoint response, with the optional
`errcode`/`errmsg` pair the code also reads. -/
structure TokenResponse where
  access_token : Option String
  expires_in : Option Int
  errcode : Option Int
  errmsg : Option String
deriving DecidableEq, Repr

/-- The checks `getAccessToken` performs after the `errcode` branch: throw when
`access_token` is falsy, otherwise return it (lines 37-41 of wechat-api.ts). -/
def tokenFieldCheck (d : TokenResponse) : Except String String :=
  if truthyStr d.access_token then .ok (d.access_token.getD "")
  else .error "获取 access_token 失败: 响应中未包含 access_token"

/-- Embedding of `getAccessToken` (wechat-api.ts lines 25-42), as a function of
the HTTP response the token endpoint returns.  The code reads `response.json()`
directly and never consults `response.ok` or `response.status`. -/
def getAccessToken (r : HttpResponse TokenResponse) : Except String String :=
  if truthyInt r.body.errcode then
    .error ("获取 access_token 失败: " ++ jsOrMsg r.body.errmsg r.body.errcode)
  else tokenFieldCheck r.body

/-! ### wechat-api.ts : uploadPermanentMaterial -/

/-- The two material kinds accepted by `uploadPermanentMaterial`. -/
inductive MaterialType where
  | image
  | video
deriving DecidableEq, Repr

/-- The kind-specific default filename (wechat-api.ts line 104). -/
def defaultFilename : MaterialType → String
  | .video => "video.mp4"
  | .image => "image.jpg"

/-- The optional description object for video uploads. -/
structure MaterialDescription where
  title : Option String
  introduction : Option String
deriving DecidableEq, Repr

/-- Model of `JSON.stringify` on a description object: present keys are emitted
in declaration order (string escaping is not modelled; no claim depends on it). -/
def serializeDescription (d : MaterialDescription) : String :=
  let fields :=
    (match d.title with
     | some t => ["\"title\":\"" ++ t ++ "\""]
     | none => []) ++
    (match d.introduction with
     | some i => ["\"introduction\":\"" ++ i ++ "\""]
     | none => [])
  "\x7b" ++ String.intercalate "," fields ++ "\x7d"

/-- The classification test the uploader applies to its input string
(wechat-api.ts lines 108 and 128): the string starts with `http://` or with
`https://`. -/
def isRemoteUrl (s : String) : Bool :=
  jsStartsWith s "http://" || jsStartsWith s "https://"

/-- The MediaSource tagged union of the specification. -/
inductive MediaSource where
  | Remote (url : String)
  | Local (path : String)
deriving DecidableEq, Repr

/-- Classification of an input string into a `MediaSource`. -/
def mediaSourceOf (s : String) : MediaSource :=
  if isRemoteUrl s then .Remote s else .Local s

/-- The suffix of `s` after its last `/`, or all of `s` when it has no `/`.
This is the value of the JavaScript expression `s.split("/").pop()`: splitting
at every `/` makes the last list element exactly the text after the last
separator (the empty string when `s` ends in `/` or is empty). -/
def lastSlashSegment (s : String) : String :=
  String.mk ((s.toList.reverse.takeWhile (fun c => c ≠ '/')).reverse)

/-- The filename resolved for a remote source (wechat-api.ts line 115):
`urlPath.split("/").pop() || defaultFilename`, where the empty string is the
only falsy string. -/
def remoteFilename (dflt pathname : String) : String :=
  let seg := lastSlashSegment pathname
  if seg = "" then dflt else seg

/-- Drop every trailing `/` of a string. -/
def trimTrailingSlashes (s : String) : String :=
  String.mk ((s.toList.reverse.dropWhile (fun c => c = '/')).reverse)

/-- Model of Node's `path.basename`: ignore trailing separators, then take the
last path segment; a path consisting only of separators gives `""`. -/
def posixBasename (p : String) : String :=
  lastSlashSegment (trimTrailingSlashes p)

/-- One field of the multipart form body. -/
inductive FormEntry where
  | fileField (name : String) (filename : String)
  | textField (name : String) (value : String)
deriving DecidableEq, Repr

/-- The multipart form `uploadPermanentMaterial` builds (wechat-api.ts lines
127-139): a single `media` file field carrying the resolved filename, plus a
`description` text field when the kind is video and a description was given. -/
def uploadFormEntries (filename : String) (ty : MaterialType)
    (descr : Option MaterialDescription) : List FormEntry :=
  [.fileField "media" filename] ++
  (match ty, descr with
   | .video, some d => [.textField "description" (serializeDescription d)]
   | _, _ => [])

/-- Outcome of the runtime's fetch of a remote source: the `ok` flag, whether
the response has a body, and the `pathname` component the runtime URL parser
extracts from the source URL. -/
structure DownloadResult where
  ok : Bool
  hasBody : Bool
  pathname : String
deriving DecidableEq, Repr

/-- JSON body of the permanent-material endpoint response. -/
structure UploadResponse where
  media_id : Option String
  url : Option String
  errcode : Option Int
  errmsg : Option String
deriving DecidableEq, Repr

/-- The checks applied to the upload response body after the HTTP-status and
`errcode` branches (wechat-api.ts lines 160-164). -/
def uploadFieldCheck (d : UploadResponse) : Except String String :=
  if truthyStr d.media_id then .ok (d.media_id.getD "")
  else .error "上传永久素材失败: 响应中未包含 media_id"

/-- The response handling of `uploadPermanentMaterial` (wechat-api.ts lines
149-164): non-`ok` HTTP status fails with status and raw body text, then a
truthy `errcode` fails, then a falsy `media_id` fails. -/
def uploadPostCheck (r : HttpResponse UploadResponse) : Except String String :=
  if !r.ok then
    .error ("上传永久素材失败: " ++ toString r.status ++ " " ++ r.bodyText)
  else if truthyInt r.body.errcode then
    .error ("上传永久素材失败: " ++ jsOrMsg r.body.errmsg r.body.errcode)
  else uploadFieldCheck r.body

/-- The external world one call of `uploadPermanentMaterial` interacts with:
the download outcome (consulted only for remote sources), whether the local
file can be read (consulted only for local sources), and the response of the
material endpoint. -/
structure UploadWorld where
  download : DownloadResult
  localReadOk : Bool
  uploadResp : HttpResponse UploadResponse

/-- Outbound actions of one `uploadPermanentMaterial` call. -/
inductive UploadEvent where
  | downloadAttempt (url : String)
  | postForm (fields : List FormEntry)
deriving DecidableEq, Repr

/-- Embedding of `uploadPermanentMaterial` (wechat-api.ts lines 97-165):
classify the source, resolve filename and payload (failing with a download
error for an unfetchable remote source, or the runtime's file error for an
unreadable local path), build the form, submit it, and check the response. -/
def uploadPermanentMaterial (w : UploadWorld) (filePath : String)
    (ty : MaterialType) (descr : Option MaterialDescription) :
    Except String String × List UploadEvent :=
  if isRemoteUrl filePath then
    if !w.download.ok || !w.download.hasBody then
      (.error ("Failed to download file from URL: " ++ filePath),
       [.downloadAttempt filePath])
    else
      let filename := remoteFilename (defaultFilename ty) w.download.pathname
      (uploadPostCheck w.uploadResp,
       [.downloadAttempt filePath, .postForm (uploadFormEntries filename ty descr)])
  else
    if !w.localReadOk then
      (.error ("ENOENT: no such file or directory, open " ++ filePath), [])
    else
      let filename := posixBasename filePath
      (uploadPostCheck w.uploadResp,
       [.postForm (uploadFormEntries filename ty descr)])

/-! ### wechat-api.ts : publishImageMessageToDraft -/

/-- One entry of the draft payload's `image_list`. -/
structure ImageListEntry where
  image_media_id : String
deriving DecidableEq, Repr

/-- The `image_info` object of the draft payload. -/
structure ImageInfo where
  image_list : List ImageListEntry
deriving DecidableEq, Repr

/-- One article record of the draft payload. -/
structure Article where
  article_type : String
  title : String
  content : String
  image_info : ImageInfo
  need_open_comment : Nat
  only_fans_can_comment : Nat
deriving DecidableEq, Repr

/-- The draft-creation request body. -/
structure DraftBody where
  articles : List Article
deriving DecidableEq, Repr

/-- The request body built by `publishImageMessageToDraft` (wechat-api.ts
lines 178-193): one `newspic` article whose `image_list` maps each media id,
in order, to an `image_media_id` entry, with both comment flags fixed to 0. -/
def mkDraftBody (title content : String) (imageMediaIds : List String) : DraftBody :=
  { articles := [{
      article_type := "newspic"
      title := title
      content := content
      image_info := { image_list := imageMediaIds.map (fun m => { image_media_id := m }) }
      need_open_comment := 0
      only_fans_can_comment := 0 }] }

/-- JSON body of the draft endpoint response. -/
structure DraftResponse where
  media_id : Option String
  errcode : Option Int
  errmsg : Option String
deriving DecidableEq, Repr

/-- The checks applied to the draft response body after the `errcode` branch
(wechat-api.ts lines 209-213). -/
def draftFieldCheck (d : DraftResponse) : Except String String :=
  if truthyStr d.media_id then .ok (d.media_id.getD "")
  else .error "发布图片消息失败: 响应中未包含 media_id"

/-- The response handling of `publishImageMessageToDraft` (wechat-api.ts lines
203-213).  The code reads `response.json()` directly and never consults
`response.ok` or `response.status`. -/
def draftRespCheck (r : HttpResponse DraftResponse) : Except String String :=
  if truthyInt r.body.errcode then
    .error ("发布图片消息失败: " ++ jsOrMsg r.body.errmsg r.body.errcode)
  else draftFieldCheck r.body

/-- Embedding of `publishImageMessageToDraft` (wechat-api.ts lines 170-214):
the submitted payload together with the result of handling the endpoint's
response. -/
def publishImageMessageToDraft (r : HttpResponse DraftResponse)
    (title content : String) (imageMediaIds : List String) :
    DraftBody × Except String String :=
  (mkDraftBody title content imageMediaIds, draftRespCheck r)

/-! ### index.ts : the tool router -/

/-- Outbound actions of one tool invocation, in order. -/
inductive Event where
  | envRead
  | tokenFetch
  | uploadCall (image : String)
  | draftCall (body : DraftBody)
  | formatterCall (content : String) (themeId : String)
  | publishArticleCall (title : String) (content : String) (cover : String)
deriving DecidableEq, Repr

/-- The two environment variables the image-message tool reads; `none` models
an unset variable. -/
structure Env where
  appId : Option String
  appSecret : Option String

/-- Arguments of a `publish_image_message` invocation; `none` models an absent
argument. -/
structure ImageArgs where
  title : Option String
  content : Option String
  images : Option (List String)

/-- The configuration error thrown at index.ts line 150. -/
def configErrorMsg : String := "未设置 WECHAT_APP_ID 或 WECHAT_APP_SECRET 环境变量"

/-- The validation error thrown at index.ts line 158. -/
def validationErrorMsg : String := "title、content 和 images 参数都是必需的，且 images 不能为空"

/-- The sequential upload loop of index.ts lines 165-169, with the outcome of
the i-th upload supplied by `upl i`: on success the media id is appended and
the loop continues; the first failure aborts the whole run. -/
def runUploads (upl : Nat → Except String String) :
    List String → Nat → Except String (List String) × List Event
  | [], _ => (.ok [], [])
  | img :: rest, i =>
    match upl i with
    | .error e => (.error e, [.uploadCall img])
    | .ok m =>
      match runUploads upl rest (i + 1) with
      | (.error e, evs) => (.error e, .uploadCall img :: evs)
      | (.ok ms, evs) => (.ok (m :: ms), .uploadCall img :: evs)

/-- Embedding of the `publish_image_message` branch of the call-tool handler
(index.ts lines 145-187).  The environment is read and checked first (lines
146-151), then the arguments are coerced and validated (lines 153-159), then
the token is fetched, each image is uploaded sequentially, and the draft is
submitted.  `tok` is the outcome of the `getAccessToken` call, `upl i` the
outcome of the i-th `uploadPermanentMaterial` call, and `draftResp` the HTTP
response of the draft endpoint. -/
def handlePublishImageMessage (env : Env) (args : ImageArgs)
    (tok : Except String String) (upl : Nat → Except String String)
    (draftResp : HttpResponse DraftResponse) :
    Except String String × List Event :=
  if !truthyStr env.appId || !truthyStr env.appSecret then
    (.error configErrorMsg, [.envRead])
  else
    let title := args.title.getD ""
    let content := args.content.getD ""
    let images := args.images.getD []
    if title = "" || content = "" || images.isEmpty then
      (.error validationErrorMsg, [.envRead])
    else
      match tok with
      | .error e => (.error e, [.envRead, .tokenFetch])
      | .ok _accessToken =>
        match runUploads upl images 0 with
        | (.error e, evs) => (.error e, .envRead :: .tokenFetch :: evs)
        | (.ok mediaIds, evs) =>
          let (body, res) := publishImageMessageToDraft draftResp title content mediaIds
          match res with
          | .error e => (.error e, .envRead :: .tokenFetch :: (evs ++ [.draftCall body]))
          | .ok mid =>
            (.ok ("图片消息已成功发布到公众号草稿箱。Media ID: " ++ mid),
             .envRead :: .tokenFetch :: (evs ++ [.draftCall body]))

/-- Arguments of a `publish_article` invocation. -/
structure ArticleArgs where
  content : Option String
  theme_id : Option String

/-- The record returned by the external content formatter `getGzhContent`. -/
structure GzhContent where
  title : Option String
  cover : Option String
  content : String

/-- Embedding of the `publish_article` branch of the call-tool handler
(index.ts lines 113-132): the `content` and `theme_id` arguments are coerced
to strings with `""` as default — there is no presence check — and passed to
the external formatter `fmt`; its title and cover get defaults and the result
is handed to the external draft publisher `pub`. -/
def handlePublishArticle (args : ArticleArgs)
    (fmt : String → String → GzhContent)
    (pub : String → String → String → Except String String) :
    Except String String × List Event :=
  let content := args.content.getD ""
  let themeId := args.theme_id.getD ""
  let g := fmt content themeId
  let title := g.title.getD "this is title"
  let cover := g.cover.getD ""
  match pub title g.content cover with
  | .error e =>
    (.error e, [.formatterCall content themeId, .publishArticleCall title g.content cover])
  | .ok mid =>
    (.ok ("Your article was successfully published to \x27公众号草稿箱\x27. The media ID is " ++ mid ++ "."),
     [.formatterCall content themeId, .publishArticleCall title g.content cover])

/-! ## Theorems -/

/-- Characterization of the JavaScript `startsWith` model: it holds exactly
when the argument extends `p` by some (possibly empty) character list. -/
theorem jsStartsWith_iff (s p : String) :
    jsStartsWith s p = true ↔ ∃ t, s.toList = p.toList ++ t := by
  unfold jsStartsWith
  rw [beq_iff_eq]
  constructor
  · intro h
    refine ⟨s.toList.drop p.toList.length, ?_⟩
    conv_lhs => rw [← List.take_append_drop p.toList.length s.toList]
    rw [h]
  · rintro ⟨t, ht⟩
    rw [ht]
    exact List.take_left p.toList t

/-- C5: exactly the strings that begin with `http://` or `https://` are
classified Remote, and every other string is classified Local. -/
theorem C5_classification (s : String) :
    (mediaSourceOf s = MediaSource.Remote s ↔
      ((∃ t, s.toList = "http://".toList ++ t) ∨ ∃ t, s.toList = "https://".toList ++ t))
    ∧ (mediaSourceOf s = MediaSource.Local s ↔
      ¬((∃ t, s.toList = "http://".toList ++ t) ∨ ∃ t, s.toList = "https://".toList ++ t)) := by
  have hiff : (jsStartsWith s "http://" || jsStartsWith s "https://") = true ↔
      ((∃ t, s.toList = "http://".toList ++ t) ∨ ∃ t, s.toList = "https://".toList ++ t) := by
    rw [Bool.or_eq_true, jsStartsWith_iff, jsStartsWith_iff]
  unfold mediaSourceOf isRemoteUrl
  cases hb : (jsStartsWith s "http://" || jsStartsWith s "https://") with
  | false =>
    rw [hb] at hiff
    simp only [Bool.false_eq_true, false_iff] at hiff
    simp only [Bool.false_eq_true, if_false]
    exact ⟨⟨fun h => absurd h (by simp), fun h => absurd h hiff⟩,
           ⟨fun _ => hiff, fun _ => trivial⟩⟩
  | true =>
    rw [hb] at hiff
    simp only [true_iff] at hiff
    simp only [if_true]
    exact ⟨⟨fun _ => hiff, fun _ => trivial⟩,
           ⟨fun h => absurd h (by simp), fun h => absurd hiff h⟩⟩

/-- A draft-endpoint response whose platform call succeeds. -/
def draftRespOkSample : HttpResponse DraftResponse :=
  { ok := true, status := 200, bodyText := ""
    body := { media_id := some "DRAFT1", errcode := none, errmsg := none } }

/-- C1 counterexample: with both environment variables unset and every
argument missing, the invocation fails with the configuration error, not the
validation error — the environment is consulted first. -/
theorem C1_counterexample :
    (handlePublishImageMessage ⟨none, none⟩ ⟨none, none, none⟩ (.ok "TOKEN")
        (fun _ => .ok "MID") draftRespOkSample).1 = .error configErrorMsg
    ∧ configErrorMsg ≠ validationErrorMsg :=
  ⟨rfl, by decide⟩

/-- C1 amended: the environment check precedes argument validation; whenever
both variables are set to non-empty strings, an invocation with a missing or
empty `title` or `content`, or a missing or empty `images` list, fails with
the validation error before any token fetch, upload, or draft call. -/
theorem C1_amended (a b : String) (args : ImageArgs)
    (tok : Except String String) (upl : Nat → Except String String)
    (dr : HttpResponse DraftResponse)
    (ha : a ≠ "") (hb : b ≠ "")
    (hbad : args.title.getD "" = "" ∨ args.content.getD "" = "" ∨ args.images.getD [] = []) :
    handlePublishImageMessage ⟨some a, some b⟩ args tok upl dr
      = (.error validationErrorMsg, [.envRead]) := by
  rcases hbad with h | h | h <;>
    simp [handlePublishImageMessage, truthyStr, ha, hb, h]

/-- C1 amended, witness: a concrete invocation with both variables set and an
empty images list yields the validation error. -/
theorem C1_amended_witness :
    handlePublishImageMessage ⟨some "wxid", some "wxsecret"⟩
        ⟨some "标题", some "内容", some []⟩ (.ok "TOKEN")
        (fun _ => .ok "MID") draftRespOkSample
      = (.error validationErrorMsg, [.envRead]) :=
  C1_amended "wxid" "wxsecret" ⟨some "标题", some "内容", some []⟩ (.ok "TOKEN")
    (fun _ => .ok "MID") draftRespOkSample (by decide) (by decide)
    (Or.inr (Or.inr rfl))

/-- When every upload at indices `i, i+1, ...` over the list succeeds, the
loop returns all media ids in input order and records one upload per image. -/
theorem runUploads_ok (upl : Nat → Except String String) (ms : Nat → String) :
    ∀ (l : List String) (i : Nat),
    (∀ j, j < l.length → upl (i + j) = .ok (ms (i + j))) →
    runUploads upl l i
      = (.ok ((List.range l.length).map (fun j => ms (i + j))), l.map Event.uploadCall) := by
  intro l
  induction l with
  | nil => intro i _; rfl
  | cons img rest ih =>
    intro i h
    have h0 : upl (i + 0) = .ok (ms (i + 0)) := h 0 (by simp)
    rw [Nat.add_zero] at h0
    have harith : ∀ j : Nat, i + 1 + j = i + (j + 1) := fun j => by omega
    have ih' := ih (i + 1) (fun j hj => by
      rw [harith j]
      exact h (j + 1) (by simpa using Nat.succ_lt_succ hj))
    unfold runUploads
    rw [h0, ih']
    simp [List.range_succ_eq_map, List.map_map, Function.comp, harith]

/-- When the uploads at indices `i..i+k-1` succeed and the one at `i+k` fails,
the loop fails with that error after exactly `k+1` upload calls. -/
theorem runUploads_fail (upl : Nat → Except String String) (e : String) :
    ∀ (l : List String) (i k : Nat), k < l.length →
    (∀ j, j < k → isFailure (upl (i + j)) = false) →
    upl (i + k) = .error e →
    runUploads upl l i = (.error e, (l.take (k + 1)).map Event.uploadCall) := by
  intro l
  induction l with
  | nil => intro i k hk _ _; exact absurd hk (by simp)
  | cons img rest ih =>
    intro i k hk hok herr
    cases k with
    | zero =>
      rw [Nat.add_zero] at herr
      unfold runUploads
      rw [herr]
      simp
    | succ k' =>
      have h0 : isFailure (upl (i + 0)) = false := hok 0 (Nat.succ_pos k')
      rw [Nat.add_zero] at h0
      cases hui : upl i with
      | error e' => rw [hui] at h0; simp [isFailure] at h0
      | ok m =>
        have ih' := ih (i + 1) k' (by simpa using Nat.lt_of_succ_lt_succ hk)
          (fun j hj => by
            have := hok (j + 1) (Nat.succ_lt_succ hj)
            rwa [show i + (j + 1) = i + 1 + j by omega] at this)
          (by rwa [show i + (k' + 1) = i + 1 + k' by omega] at herr)
        unfold runUploads
        rw [hui, ih']
        simp [List.take_succ_cons]

/-- C2: when every upload succeeds, the submitted draft payload's `image_list`
has exactly one `image_media_id` entry per input image, in input order: the
i-th entry holds the media id returned by the i-th upload. -/
theorem C2_order_preservation (a b t title content : String) (images : List String)
    (ms : Nat → String) (upl : Nat → Except String String)
    (dr : HttpResponse DraftResponse)
    (ha : a ≠ "") (hb : b ≠ "") (htitle : title ≠ "") (hcontent : content ≠ "")
    (hne : images ≠ [])
    (hupl : ∀ i, i < images.length → upl i = .ok (ms i)) :
    (handlePublishImageMessage ⟨some a, some b⟩ ⟨some title, some content, some images⟩
        (.ok t) upl dr).2
      = [.envRead, .tokenFetch] ++ images.map Event.uploadCall
        ++ [.draftCall (mkDraftBody title content ((List.range images.length).map ms))]
    ∧ (mkDraftBody title content ((List.range images.length).map ms)).articles
      = [{ article_type := "newspic", title := title, content := content,
           image_info := { image_list := (List.range images.length).map (fun i => ⟨ms i⟩) },
           need_open_comment := 0, only_fans_can_comment := 0 }] := by
  have hrun := runUploads_ok upl ms images 0 (by
    intro j hj
    rw [Nat.zero_add]
    exact hupl j hj)
  simp only [Nat.zero_add] at hrun
  obtain ⟨im, rest, rfl⟩ : ∃ im rest, images = im :: rest := by
    cases images with
    | nil => exact absurd rfl hne
    | cons a' b' => exact ⟨a', b', rfl⟩
  constructor
  · cases hdr : draftRespCheck dr <;>
      simp [handlePublishImageMessage, publishImageMessageToDraft, truthyStr,
        ha, hb, htitle, hcontent, hrun, hdr]
  · simp [mkDraftBody, List.map_map, Function.comp]

/-- Media ids used by the concrete C2 run. -/
def msSample : Nat → String := fun i => if i = 0 then "M0" else "M1"

/-- Upload outcomes used by the concrete C2 run: every upload succeeds. -/
def uplSample : Nat → Except String String := fun i => .ok (msSample i)

/-- C2 witness: a concrete two-image run in which both uploads succeed puts
`M0` then `M1` into the payload's `image_list`, in that order. -/
theorem C2_order_preservation_witness :
    (handlePublishImageMessage ⟨some "wxid", some "wxsecret"⟩
        ⟨some "标题", some "内容", some ["a.jpg", "b.jpg"]⟩ (.ok "TOKEN")
        uplSample draftRespOkSample).2
      = [.envRead, .tokenFetch] ++ ["a.jpg", "b.jpg"].map Event.uploadCall
        ++ [.draftCall (mkDraftBody "标题" "内容" ((List.range 2).map msSample))]
    ∧ (mkDraftBody "标题" "内容" ((List.range 2).map msSample)).articles
      = [{ article_type := "newspic", title := "标题", content := "内容",
           image_info := { image_list := ((List.range 2).map (fun i => ⟨msSample i⟩)) },
           need_open_comment := 0, only_fans_can_comment := 0 }] :=
  C2_order_preservation "wxid" "wxsecret" "TOKEN" "标题" "内容" ["a.jpg", "b.jpg"]
    msSample uplSample draftRespOkSample
    (by decide) (by decide) (by decide) (by decide) (by decide)
    (fun i _ => rfl)

/-- C3: when the k-th upload fails, the invocation fails with that upload's
error, only the first k+1 images are ever uploaded, and no draft call occurs:
the trace ends at the failing upload. -/
theorem C3_fail_fast (a b t title content : String) (images : List String)
    (upl : Nat → Except String String) (dr : HttpResponse DraftResponse)
    (k : Nat) (e : String)
    (ha : a ≠ "") (hb : b ≠ "") (htitle : title ≠ "") (hcontent : content ≠ "")
    (hk : k < images.length)
    (hok : ∀ j, j < k → isFailure (upl j) = false)
    (herr : upl k = .error e) :
    handlePublishImageMessage ⟨some a, some b⟩ ⟨some title, some content, some images⟩
        (.ok t) upl dr
      = (.error e, [.envRead, .tokenFetch] ++ (images.take (k + 1)).map Event.uploadCall) := by
  have hrun := runUploads_fail upl e images 0 k hk (by
      intro j hj
      rw [Nat.zero_add]
      exact hok j hj)
    (by rw [Nat.zero_add]; exact herr)
  obtain ⟨im, rest, rfl⟩ : ∃ im rest, images = im :: rest := by
    cases images with
    | nil => exact absurd hk (by simp)
    | cons a' b' => exact ⟨a', b', rfl⟩
  simp [handlePublishImageMessage, truthyStr, ha, hb, htitle, hcontent, hrun]

/-- C3 witness: with three images where the second upload fails, the run fails
with that error, the third image is never uploaded, and no draft call occurs. -/
theorem C3_fail_fast_witness :
    handlePublishImageMessage ⟨some "wxid", some "wxsecret"⟩
        ⟨some "标题", some "内容", some ["a.jpg", "b.jpg", "c.jpg"]⟩ (.ok "TOKEN")
        (fun i => if i = 0 then .ok "M0" else .error "上传永久素材失败: 45009")
        draftRespOkSample
      = (.error "上传永久素材失败: 45009",
         [.envRead, .tokenFetch]
           ++ ((["a.jpg", "b.jpg", "c.jpg"] : List String).take 2).map Event.uploadCall) :=
  C3_fail_fast "wxid" "wxsecret" "TOKEN" "标题" "内容" ["a.jpg", "b.jpg", "c.jpg"]
    (fun i => if i = 0 then .ok "M0" else .error "上传永久素材失败: 45009")
    draftRespOkSample 1 "上传永久素材失败: 45009"
    (by decide) (by decide) (by decide) (by decide) (by decide)
    (fun j hj => by
      have hj0 : j = 0 := by omega
      subst hj0
      rfl)
    rfl

/-- A token-endpoint response with a failing HTTP status but a well-formed
token body. -/
def tokenRespBadStatus : HttpResponse TokenResponse :=
  { ok := false, status := 500, bodyText := "Internal Server Error"
    body := { access_token := some "TOK", expires_in := some 7200,
              errcode := none, errmsg := none } }

/-- C4 counterexample: the token fetch ignores the HTTP status — a response
with `ok = false` (status 500) whose JSON body carries an `access_token`
succeeds, so a non-success HTTP status does not always yield a failure. -/
theorem C4_counterexample :
    tokenRespBadStatus.ok = false ∧ getAccessToken tokenRespBadStatus = .ok "TOK" :=
  ⟨rfl, rfl⟩

/-- C4 amended: all three response handlers fail on a truthy `errcode`
regardless of HTTP status, but only the permanent-material upload also fails
on a non-success HTTP status; the token fetch and the draft add ignore the
HTTP status entirely. -/
theorem C4_amended :
    (∀ r : HttpResponse TokenResponse, truthyInt r.body.errcode = true →
      isFailure (getAccessToken r) = true)
    ∧ (∀ r : HttpResponse UploadResponse, truthyInt r.body.errcode = true →
      isFailure (uploadPostCheck r) = true)
    ∧ (∀ r : HttpResponse DraftResponse, truthyInt r.body.errcode = true →
      isFailure (draftRespCheck r) = true)
    ∧ (∀ r : HttpResponse UploadResponse, r.ok = false →
      isFailure (uploadPostCheck r) = true)
    ∧ (∀ (b : TokenResponse) (ok ok' : Bool) (st st' : Nat) (txt txt' : String),
      getAccessToken ⟨ok, st, txt, b⟩ = getAccessToken ⟨ok', st', txt', b⟩)
    ∧ (∀ (b : DraftResponse) (ok ok' : Bool) (st st' : Nat) (txt txt' : String),
      draftRespCheck ⟨ok, st, txt, b⟩ = draftRespCheck ⟨ok', st', txt', b⟩) := by
  refine ⟨?_, ?_, ?_, ?_, ?_, ?_⟩
  · intro r h
    simp [getAccessToken, h, isFailure]
  · intro r h
    cases hok : r.ok <;> simp [uploadPostCheck, hok, h, isFailure]
  · intro r h
    simp [draftRespCheck, h, isFailure]
  · intro r h
    simp [uploadPostCheck, h, isFailure]
  · intro b ok ok' st st' txt txt'
    rfl
  · intro b ok ok' st st' txt txt'
    rfl

/-- A token-endpoint response carrying the platform error 40001. -/
def tokenRespErr40001 : HttpResponse TokenResponse :=
  { ok := true, status := 200, bodyText := ""
    body := { access_token := none, expires_in := none,
              errcode := some 40001, errmsg := some "invalid credential" } }

/-- C4 amended, witness: the platform-error response 40001 makes the token
fetch fail even though its HTTP status is a success. -/
theorem C4_amended_witness :
    isFailure (getAccessToken tokenRespErr40001) = true :=
  C4_amended.1 tokenRespErr40001 (by decide)

/-- A token-endpoint response whose `errcode` field is present with value 0. -/
def tokenRespZeroErr : HttpResponse TokenResponse :=
  { ok := true, status := 200, bodyText := ""
    body := { access_token := some "TOK", expires_in := some 7200,
              errcode := some 0, errmsg := none } }

/-- C6 counterexample: a response that does contain an error-code field
(`errcode = 0`) nevertheless succeeds, so "fails if the response contains an
error code field" is false as stated — only a truthy error code fails. -/
theorem C6_counterexample :
    tokenRespZeroErr.body.errcode.isSome = true
    ∧ getAccessToken tokenRespZeroErr = .ok "TOK" :=
  ⟨rfl, rfl⟩

/-- C6 amended: `getAccessToken` fails exactly when the response carries a
truthy (present and nonzero) error code — with a message carrying the
platform's `errmsg`, or the code when `errmsg` is absent or empty — or when
the `access_token` field is absent or empty (with the token-missing message);
otherwise it returns the response's `access_token`.  The 40001 response with
`errmsg` "invalid credential" yields a message containing that text. -/
theorem C6_amended :
    (∀ r : HttpResponse TokenResponse,
      (isFailure (getAccessToken r) = true ↔
        (truthyInt r.body.errcode = true ∨ truthyStr r.body.access_token = false))
      ∧ (truthyInt r.body.errcode = true →
          getAccessToken r
            = .error ("获取 access_token 失败: " ++ jsOrMsg r.body.errmsg r.body.errcode))
      ∧ (truthyInt r.body.errcode = false → truthyStr r.body.access_token = false →
          getAccessToken r = .error "获取 access_token 失败: 响应中未包含 access_token")
      ∧ (truthyInt r.body.errcode = false → truthyStr r.body.access_token = true →
          getAccessToken r = .ok (r.body.access_token.getD "")))
    ∧ getAccessToken tokenRespErr40001
        = .error ("获取 access_token 失败: " ++ "invalid credential" ++ "") := by
  constructor
  · intro r
    refine ⟨?_, ?_, ?_, ?_⟩
    · cases he : truthyInt r.body.errcode <;> cases ht : truthyStr r.body.access_token <;>
        simp [getAccessToken, tokenFieldCheck, he, ht, isFailure]
    · intro h
      simp [getAccessToken, h]
    · intro h1 h2
      simp [getAccessToken, tokenFieldCheck, h1, h2]
    · intro h1 h2
      simp [getAccessToken, tokenFieldCheck, h1, h2]
  · rfl

/-- C6 amended, witness: the 40001 / "invalid credential" response fails with
the platform's message interpolated. -/
theorem C6_amended_witness :
    getAccessToken tokenRespErr40001
      = .error ("获取 access_token 失败: "
          ++ jsOrMsg (some "invalid credential") (some 40001)) :=
  (C6_amended.1 tokenRespErr40001).2.1 (by decide)

/-- C7: the multipart form's single file field is named `media` and carries
the resolved filename; for a fetchable remote source that filename is the
final path segment of the URL's path component, falling back to the
kind-specific default exactly when that path has no non-empty final segment;
for a readable local source it is the path's basename. -/
theorem C7_filename_resolution (w : UploadWorld) (ty : MaterialType)
    (descr : Option MaterialDescription) (filePath : String) :
    (∀ fn, (uploadFormEntries fn ty descr).head? = some (.fileField "media" fn))
    ∧ (isRemoteUrl filePath = true → w.download.ok = true → w.download.hasBody = true →
        (uploadPermanentMaterial w filePath ty descr).2
          = [.downloadAttempt filePath,
             .postForm (uploadFormEntries
               (remoteFilename (defaultFilename ty) w.download.pathname) ty descr)]
        ∧ (lastSlashSegment w.download.pathname ≠ "" →
            remoteFilename (defaultFilename ty) w.download.pathname
              = lastSlashSegment w.download.pathname)
        ∧ (lastSlashSegment w.download.pathname = "" →
            remoteFilename (defaultFilename ty) w.download.pathname = defaultFilename ty))
    ∧ (isRemoteUrl filePath = false → w.localReadOk = true →
        (uploadPermanentMaterial w filePath ty descr).2
          = [.postForm (uploadFormEntries (posixBasename filePath) ty descr)]) := by
  refine ⟨?_, ?_, ?_⟩
  · intro fn
    rfl
  · intro hr hok hbody
    refine ⟨?_, ?_, ?_⟩
    · simp [uploadPermanentMaterial, hr, hok, hbody]
    · intro h
      simp [remoteFilename, h]
    · intro h
      simp [remoteFilename, h]
  · intro hr hlocal
    simp [uploadPermanentMaterial, hr, hlocal]

/-- The external world of a successful remote upload of `https://x/y/pic.png`. -/
def wSample : UploadWorld :=
  { download := { ok := true, hasBody := true, pathname := "/y/pic.png" }
    localReadOk := true
    uploadResp := { ok := true, status := 200, bodyText := ""
                    body := { media_id := some "MID1", url := none,
                              errcode := none, errmsg := none } } }

/-- C7 witness: uploading the remote source `https://x/y/pic.png` attaches the
filename `pic.png` to the `media` field. -/
theorem C7_filename_resolution_witness :
    (uploadPermanentMaterial wSample "https://x/y/pic.png" .image none).2
      = [.downloadAttempt "https://x/y/pic.png", .postForm [.fileField "media" "pic.png"]] :=
  ((C7_filename_resolution wSample .image none "https://x/y/pic.png").2.1
    (by decide) rfl rfl).1

/-- A content formatter returning no title and no cover. -/
def fmtSample : String → String → GzhContent := fun c _ =>
  { title := none, cover := none, content := c }

/-- A draft publisher that always succeeds with media id `DRAFT_MID`. -/
def pubSample : String → String → String → Except String String :=
  fun _ _ _ => .ok "DRAFT_MID"

/-- C8 counterexample: invoking `publish_article` with no `content` argument
does not fail with a validation error — the handler coerces the missing value
to the empty string, calls the external formatter with it, and succeeds. -/
theorem C8_counterexample :
    (handlePublishArticle ⟨none, none⟩ fmtSample pubSample).1
      = .ok "Your article was successfully published to \x27公众号草稿箱\x27. The media ID is DRAFT_MID."
    ∧ (handlePublishArticle ⟨none, none⟩ fmtSample pubSample).2.head?
      = some (.formatterCall "" "") :=
  ⟨rfl, rfl⟩

/-- C8 amended: the router performs no validation of `content` for
`publish_article`: every invocation, including one lacking `content`, proceeds
to the external content formatter (with missing arguments coerced to `""`) and
then to the external draft publisher. -/
theorem C8_amended (args : ArticleArgs) (fmt : String → String → GzhContent)
    (pub : String → String → String → Except String String) :
    (handlePublishArticle args fmt pub).2
      = [.formatterCall (args.content.getD "") (args.theme_id.getD ""),
         .publishArticleCall
           ((fmt (args.content.getD "") (args.theme_id.getD "")).title.getD "this is title")
           (fmt (args.content.getD "") (args.theme_id.getD "")).content
           ((fmt (args.content.getD "") (args.theme_id.getD "")).cover.getD "")] := by
  cases hp : pub ((fmt (args.content.getD "") (args.theme_id.getD "")).title.getD "this is title")
      (fmt (args.content.getD "") (args.theme_id.getD "")).content
      ((fmt (args.content.getD "") (args.theme_id.getD "")).cover.getD "") <;>
    simp [handlePublishArticle, hp]

/-- C9: in all three response handlers, an `errcode` of 0 is falsy and does
not take the platform-error branch: the handler proceeds directly to the
remaining success-field checks. -/
theorem C9_errcode_zero (rt : HttpResponse TokenResponse)
    (ru : HttpResponse UploadResponse) (rd : HttpResponse DraftResponse)
    (ht : rt.body.errcode = some 0) (hu : ru.body.errcode = some 0)
    (hd : rd.body.errcode = some 0) :
    getAccessToken rt = tokenFieldCheck rt.body
    ∧ (ru.ok = true → uploadPostCheck ru = uploadFieldCheck ru.body)
    ∧ draftRespCheck rd = draftFieldCheck rd.body := by
  refine ⟨?_, ?_, ?_⟩
  · simp [getAccessToken, truthyInt, ht]
  · intro hok
    simp [uploadPostCheck, truthyInt, hu, hok]
  · simp [draftRespCheck, truthyInt, hd]

/-- An upload-endpoint response with `errcode = 0` and a media id. -/
def uploadRespZeroSample : HttpResponse UploadResponse :=
  { ok := true, status := 200, bodyText := ""
    body := { media_id := some "MID9", url := none, errcode := some 0, errmsg := none } }

/-- A draft-endpoint response with `errcode = 0` and a media id. -/
def draftRespZeroSample : HttpResponse DraftResponse :=
  { ok := true, status := 200, bodyText := ""
    body := { media_id := some "DRAFT9", errcode := some 0, errmsg := none } }

/-- C9 witness: concrete `errcode = 0` responses reach the success-field
checks in all three handlers. -/
theorem C9_errcode_zero_witness :
    getAccessToken tokenRespZeroErr = tokenFieldCheck tokenRespZeroErr.body
    ∧ (uploadRespZeroSample.ok = true →
        uploadPostCheck uploadRespZeroSample = uploadFieldCheck uploadRespZeroSample.body)
    ∧ draftRespCheck draftRespZeroSample = draftFieldCheck draftRespZeroSample.body :=
  C9_errcode_zero tokenRespZeroErr uploadRespZeroSample draftRespZeroSample rfl rfl rfl

/-- C10: the token fetch discards the advertised expiry — two responses
differing only in `expires_in` give identical results — and on success it
returns exactly the `access_token` string. -/
theorem C10_expiry_ignored :
    (∀ (ok : Bool) (st : Nat) (txt : String) (b : TokenResponse) (e e' : Option Int),
      getAccessToken ⟨ok, st, txt, { b with expires_in := e }⟩
        = getAccessToken ⟨ok, st, txt, { b with expires_in := e' }⟩)
    ∧ (∀ r : HttpResponse TokenResponse, truthyInt r.body.errcode = false →
        truthyStr r.body.access_token = true →
        getAccessToken r = .ok (r.body.access_token.getD "")) := by
  constructor
  · intro ok st txt b e e'
    cases b
    rfl
  · intro r h1 h2
    simp [getAccessToken, tokenFieldCheck, h1, h2]

/-- C10 witness: a concrete successful response returns its token string. -/
theorem C10_expiry_ignored_witness :
    getAccessToken
        { ok := true, status := 200, bodyText := ""
          body := { access_token := some "TOK", expires_in := some 1,
                    errcode := none, errmsg := none } }
      = .ok "TOK" :=
  C10_expiry_ignored.2
    { ok := true, status := 200, bodyText := ""
      body := { access_token := some "TOK", expires_in := some 1,
                errcode := none, errmsg := none } }
    (by decide) (by decide)
